import Mathlib

/-!
# MultiSims: a two-agent crossing experiment driven through the RVO2 engine

Shallow embedding of `examples/MultiSims.cpp`.

* Scalars (`float`, `double`) are idealised as exact rationals `ℚ`; rounding,
  infinities and NaN are outside the model.
* The process-wide state of the program (the global `goals` vector, the hidden
  state of `rand()`, the open output stream and the simulator instance the
  harness points to) is passed explicitly as a `World`.
* What the C library provides (`RAND_MAX`, `cos`, `sin`, `sqrt`) and the
  collision-avoidance solver inside `doStep` are parameters, bundled in `Env`.
* The simulator interface and `Vector2` belong to the library, not to the
  example file; they are modelled from the description of the interface.
* Loops that may run forever (`do ... while`) take a fuel argument; `none`
  means that no result was produced (fuel exhausted, or an index outside a
  container, which is undefined behaviour in the source). More fuel never
  changes a result (`run_simulation_once_mono`).
* The build is the default one: `RVO_OUTPUT_TIME_AND_POSITIONS` is 1, and the
  loop of `setPreferredVelocities` runs sequentially (no OpenMP). Failures of
  the output stream are not modelled.
-/

namespace RVO

/-! ## Vector2 (library type, not part of the example file) -/

/-- Modelled from the spec: Vector2, a 2D quantity supporting addition,
subtraction, scalar multiplication, squared magnitude and normalization
(the class lives in the library headers, outside the example file). -/
structure Vector2 where
  x : ℚ
  y : ℚ
deriving DecidableEq

/-- Modelled from the spec: component-wise addition of Vector2. -/
instance : Add Vector2 := ⟨fun a b => ⟨a.x + b.x, a.y + b.y⟩⟩

/-- Modelled from the spec: component-wise subtraction of Vector2. -/
instance : Sub Vector2 := ⟨fun a b => ⟨a.x - b.x, a.y - b.y⟩⟩

/-- Modelled from the spec: component-wise negation of Vector2. -/
instance : Neg Vector2 := ⟨fun a => ⟨-a.x, -a.y⟩⟩

/-- Modelled from the spec: scalar multiplication `s * v` of Vector2. -/
instance : HMul ℚ Vector2 Vector2 := ⟨fun s v => ⟨s * v.x, s * v.y⟩⟩

/-- Modelled from the spec: squared magnitude of a Vector2. -/
def absSq (v : Vector2) : ℚ := v.x * v.x + v.y * v.y

/-! ## Environment: C library and the black-box solver -/

/-- The value of `M_PI` (the literal of the source, which is also the literal
of the `cmath` macro). -/
def M_PI : ℚ := 3.14159265358979323846

/-- Modelled from the spec: one agent as the engine stores it, with a position,
a velocity, a radius, a maximum speed, a preferred velocity and the remaining
defaults of `setAgentDefaults` (the engine classes are outside the example
file). -/
structure Agent where
  position : Vector2
  velocity : Vector2
  prefVelocity : Vector2
  neighborDist : ℚ
  maxNeighbors : Nat
  timeHorizon : ℚ
  timeHorizonObst : ℚ
  radius : ℚ
  maxSpeed : ℚ
deriving DecidableEq

/-- Modelled from the spec: the defaults given to agents that are subsequently
added, configureAgentDefaults(neighborDist, maxNeighbors, ownTimeHorizon,
obstacleTimeHorizon, radius, maxSpeed). -/
structure AgentDefaults where
  neighborDist : ℚ
  maxNeighbors : Nat
  timeHorizon : ℚ
  timeHorizonObst : ℚ
  radius : ℚ
  maxSpeed : ℚ
deriving DecidableEq

/-- Modelled from the spec: the state of one simulator instance; the
NavigationEngine owns the agents (indexed from zero in registration order), a
global time and a time step. -/
structure RVOSimulator where
  agents : List Agent
  defaults : AgentDefaults
  globalTime : ℚ
  timeStep : ℚ
deriving DecidableEq

/-- Everything the example file takes from outside: the C library constants
and functions, and the solver that `doStep` runs (given the simulator state
and an agent index, the position and the velocity that agent has after the
step). -/
structure Env where
  RAND_MAX : Nat
  cos : ℚ → ℚ
  sin : ℚ → ℚ
  sqrt : ℚ → ℚ
  solve : RVOSimulator → Nat → Vector2 × Vector2

/-- Modelled from the spec: magnitude of a Vector2, the square root of its
squared magnitude. -/
def abs (E : Env) (v : Vector2) : ℚ := E.sqrt (absSq v)

/-- Modelled from the spec: normalization, the vector scaled by the inverse of
its magnitude (unit length, same direction). -/
def normalize (E : Env) (v : Vector2) : Vector2 := ⟨v.x / abs E v, v.y / abs E v⟩

/-! ## The simulator interface consumed by the example -/

/-- Modelled from the spec: a new simulator has no agents and global time 0. -/
def RVOSimulator.new : RVOSimulator :=
  { agents := [], defaults := ⟨0, 0, 0, 0, 0, 0⟩, globalTime := 0, timeStep := 0 }

/-- Modelled from the spec: configureTimeStep(step). -/
def RVOSimulator.setTimeStep (sim : RVOSimulator) (timeStep : ℚ) : RVOSimulator :=
  { sim with timeStep := timeStep }

/-- Modelled from the spec: configureAgentDefaults. -/
def RVOSimulator.setAgentDefaults (sim : RVOSimulator) (neighborDist : ℚ) (maxNeighbors : Nat)
    (timeHorizon timeHorizonObst radius maxSpeed : ℚ) : RVOSimulator :=
  { sim with defaults := ⟨neighborDist, maxNeighbors, timeHorizon, timeHorizonObst, radius, maxSpeed⟩ }

/-- Modelled from the spec: addAgent(position), the new agent takes the next
index and the current defaults; its velocity and its preferred velocity start
at zero. -/
def RVOSimulator.addAgent (sim : RVOSimulator) (position : Vector2) : RVOSimulator :=
  { sim with agents := sim.agents ++
      [{ position := position, velocity := ⟨0, 0⟩, prefVelocity := ⟨0, 0⟩,
         neighborDist := sim.defaults.neighborDist, maxNeighbors := sim.defaults.maxNeighbors,
         timeHorizon := sim.defaults.timeHorizon, timeHorizonObst := sim.defaults.timeHorizonObst,
         radius := sim.defaults.radius, maxSpeed := sim.defaults.maxSpeed }] }

/-- Modelled from the spec: agentCount(). -/
def RVOSimulator.getNumAgents (sim : RVOSimulator) : Nat := sim.agents.length

/-- Modelled from the spec: globalTime(). -/
def RVOSimulator.getGlobalTime (sim : RVOSimulator) : ℚ := sim.globalTime

/-- Modelled from the spec: agentPosition(agentIndex). -/
def RVOSimulator.getAgentPosition (sim : RVOSimulator) (i : Nat) : Option Vector2 :=
  (sim.agents[i]?).map Agent.position

/-- Modelled from the spec: agentRadius(agentIndex). -/
def RVOSimulator.getAgentRadius (sim : RVOSimulator) (i : Nat) : Option ℚ :=
  (sim.agents[i]?).map Agent.radius

/-- Modelled from the spec: the preferred velocity last set for the agent. -/
def RVOSimulator.getAgentPrefVelocity (sim : RVOSimulator) (i : Nat) : Option Vector2 :=
  (sim.agents[i]?).map Agent.prefVelocity

/-- Modelled from the spec: setPreferredVelocity(agentIndex, velocity). -/
def RVOSimulator.setAgentPrefVelocity (sim : RVOSimulator) (i : Nat) (v : Vector2) :
    Option RVOSimulator :=
  match sim.agents[i]? with
  | none => none
  | some a => some { sim with agents := sim.agents.set i { a with prefVelocity := v } }

/-- Modelled from the spec: the move `doStep` resolves for every agent; the
agents from index `i` on get the positions and velocities the solver chose,
everything else about them is kept. -/
def moveAgents (E : Env) (sim : RVOSimulator) : Nat → List Agent → List Agent
  | _, [] => []
  | i, a :: rest =>
    { a with position := (E.solve sim i).1, velocity := (E.solve sim i).2 }
      :: moveAgents E sim (i + 1) rest

/-- Modelled from the spec: step() advances global time by the configured time
step and resolves one collision-aware move for every agent. -/
def RVOSimulator.doStep (E : Env) (sim : RVOSimulator) : RVOSimulator :=
  { sim with agents := moveAgents E sim 0 sim.agents,
             globalTime := sim.globalTime + sim.timeStep }

/-! ## Process state -/

/-- Hidden state of `rand()`: the sequence the seeded generator produces and
how many values have been drawn from it. -/
structure RandState where
  seq : Nat → Nat
  pos : Nat

/-- One call of `rand()`: the value drawn and the generator state after it. -/
def rand (s : RandState) : Nat × RandState := (s.seq s.pos, { s with pos := s.pos + 1 })

/-- The generator state after `m` further draws. -/
def RandState.advance (s : RandState) (m : Nat) : RandState := { s with pos := s.pos + m }

/-- One line of a telemetry file (each ends with `std::endl` in the source). -/
inductive Line where
  | header (gx gy radius maxSpeed : ℚ)
  | record (time : ℚ) (positions : List Vector2)
deriving DecidableEq

/-- The state the functions of the example file act on: the simulator they
are handed, the global `goals`, the state of `rand()` and the lines written
so far to the output stream. -/
structure World where
  sim : RVOSimulator
  goals : List Vector2
  rng : RandState
  out : List Line

/-! ## setupScenario -/

/-- The outcome of the rejection loop of `setupScenario`: the four vectors of
the accepted attempt, the generator state, and the number of iterations the
loop ran (a counter added for the proofs; the source does not compute it). -/
structure Scenario where
  p1 : Vector2
  g1 : Vector2
  p2 : Vector2
  g2 : Vector2
  rng : RandState
  attempts : Nat

/-- The angle computed from one draw `r` in `setupScenario`:
`float(r) / RAND_MAX * 2 * M_PI`. -/
def scenarioAngle (E : Env) (r : Nat) : ℚ := (r : ℚ) / (E.RAND_MAX : ℚ) * 2 * M_PI

/-- The `do { ... } while (absSq(p1 - p2) < 0.2)` loop of `setupScenario`. -/
def scenarioLoop (E : Env) : Nat → RandState → Option Scenario
  | 0, _ => none
  | fuel + 1, rng =>
    let d1 := rand rng
    let angle1 := scenarioAngle E d1.1
    let d2 := rand d1.2
    let angle2 := scenarioAngle E d2.1
    let p1 : Vector2 := ⟨E.cos angle1 * 2, E.sin angle1 * 2⟩
    let g1 : Vector2 := ⟨-E.cos angle1 * 2, -E.sin angle1 * 2⟩
    let p2 : Vector2 := ⟨E.cos angle2 * 2, E.sin angle2 * 2⟩
    let g2 : Vector2 := ⟨-E.cos angle2 * 2, -E.sin angle2 * 2⟩
    if absSq (p1 - p2) < 0.2 then
      (scenarioLoop E fuel d2.2).map (fun s => { s with attempts := s.attempts + 1 })
    else
      some { p1 := p1, g1 := g1, p2 := p2, g2 := g2, rng := d2.2, attempts := 1 }

/-- The function `setupScenario`; the second component is the number of
iterations of its rejection loop. -/
def setupScenario (E : Env) (fuel : Nat) (w : World) : Option (World × Nat) :=
  let radius : ℚ := 0.3
  let max_speed : ℚ := 1.0
  let sim := w.sim.setTimeStep 1.0
  let sim := sim.setAgentDefaults 15.0 10 5.0 5.0 radius max_speed
  match scenarioLoop E fuel w.rng with
  | none => none
  | some s =>
    let sim := sim.addAgent s.p1
    let goals := w.goals ++ [s.g1]
    let sim := sim.addAgent s.p2
    let goals := goals ++ [s.g2]
    let out := w.out ++ [Line.header s.g1.x s.g1.y radius max_speed]
    let out := out ++ [Line.header s.g2.x s.g2.y radius max_speed]
    some ({ sim := sim, goals := goals, rng := s.rng, out := out }, s.attempts)

/-! ## updateVisualization -/

/-- The loop of `updateVisualization`: the positions of the agents from index
`i` on, `k` being the number of agents left. -/
def positionsFrom (sim : RVOSimulator) : Nat → Nat → Option (List Vector2)
  | 0, _ => some []
  | k + 1, i =>
    match sim.getAgentPosition i with
    | none => none
    | some p => (positionsFrom sim k (i + 1)).map (fun ps => p :: ps)

/-- The function `updateVisualization`: one line with the global time and the
position of every agent. -/
def updateVisualization (w : World) : Option World :=
  match positionsFrom w.sim w.sim.getNumAgents 0 with
  | none => none
  | some ps => some { w with out := w.out ++ [Line.record w.sim.getGlobalTime ps] }

/-! ## setPreferredVelocities -/

/-- The vector of the first `setAgentPrefVelocity` call: the vector to the
goal, normalized when its squared magnitude exceeds 1. -/
def goalVelocity (E : Env) (goal position : Vector2) : Vector2 :=
  let goalVector := goal - position
  if absSq goalVector > 1.0 then normalize E goalVector else goalVector

/-- The angle of the perturbation: `rand() * 2.0f * M_PI / RAND_MAX`. -/
def perturbAngle (E : Env) (r : Nat) : ℚ := (r : ℚ) * 2.0 * M_PI / (E.RAND_MAX : ℚ)

/-- The magnitude of the perturbation: `rand() * 0.0001f / RAND_MAX`. -/
def perturbDist (E : Env) (r : Nat) : ℚ := (r : ℚ) * 0.0001 / (E.RAND_MAX : ℚ)

/-- The first half of the loop body of `setPreferredVelocities` for agent `i`:
the goal-seeking vector and the first `setAgentPrefVelocity` call. -/
def seekGoal (E : Env) (goals : List Vector2) (i : Nat) (sim : RVOSimulator) :
    Option RVOSimulator :=
  match goals[i]?, sim.getAgentPosition i with
  | some goal, some position => sim.setAgentPrefVelocity i (goalVelocity E goal position)
  | _, _ => none

/-- The second half of the loop body of `setPreferredVelocities` for agent `i`:
two draws, and the second `setAgentPrefVelocity` call, which reads the
preferred velocity back and adds the perturbation to it. -/
def perturb (E : Env) (i : Nat) (sim : RVOSimulator) (rng : RandState) :
    Option (RVOSimulator × RandState) :=
  let d1 := rand rng
  let angle := perturbAngle E d1.1
  let d2 := rand d1.2
  let dist := perturbDist E d2.1
  match sim.getAgentPrefVelocity i with
  | none => none
  | some pv =>
    match sim.setAgentPrefVelocity i (pv + dist * (⟨E.cos angle, E.sin angle⟩ : Vector2)) with
    | none => none
    | some sim2 => some (sim2, d2.2)

/-- The body of the loop of `setPreferredVelocities` for agent `i`. -/
def setPreferredVelocity (E : Env) (goals : List Vector2) (i : Nat)
    (sim : RVOSimulator) (rng : RandState) : Option (RVOSimulator × RandState) :=
  match seekGoal E goals i sim with
  | none => none
  | some sim1 => perturb E i sim1 rng

/-- The loop of `setPreferredVelocities` from agent `i` on, `k` being the
number of agents left. -/
def setPreferredVelocitiesFrom (E : Env) (goals : List Vector2) :
    Nat → Nat → RVOSimulator → RandState → Option (RVOSimulator × RandState)
  | 0, _, sim, rng => some (sim, rng)
  | k + 1, i, sim, rng =>
    match setPreferredVelocity E goals i sim rng with
    | none => none
    | some r => setPreferredVelocitiesFrom E goals k (i + 1) r.1 r.2

/-- The conversion `static_cast<int>` of a `size_t` value: its low 32 bits read
as a two-complement number. -/
def castInt (n : Nat) : Int :=
  if n % 4294967296 < 2147483648 then ((n % 4294967296 : Nat) : Int)
  else ((n % 4294967296 : Nat) : Int) - 4294967296

/-- The function `setPreferredVelocities`; its loop runs while
`i < static_cast<int>(sim->getNumAgents())`. -/
def setPreferredVelocities (E : Env) (w : World) : Option World :=
  match setPreferredVelocitiesFrom E w.goals (castInt w.sim.getNumAgents).toNat 0 w.sim w.rng with
  | none => none
  | some r => some { w with sim := r.1, rng := r.2 }

/-! ## reachedGoal -/

/-- The loop of `reachedGoal` from agent `i` on, `k` being the number of
agents left; it returns `false` at the first agent that is too far. -/
def reachedGoalFrom (sim : RVOSimulator) (goals : List Vector2) : Nat → Nat → Option Bool
  | 0, _ => some true
  | k + 1, i =>
    match sim.getAgentPosition i, goals[i]?, sim.getAgentRadius i with
    | some position, some goal, some radius =>
      if absSq (position - goal) > radius * radius then some false
      else reachedGoalFrom sim goals k (i + 1)
    | _, _, _ => none

/-- The function `reachedGoal`. -/
def reachedGoal (w : World) : Option Bool :=
  reachedGoalFrom w.sim w.goals w.sim.getNumAgents 0

/-! ## run_simulation_once and main -/

/-- One pass through the body of the step loop of `run_simulation_once`:
`updateVisualization`, `setPreferredVelocities`, `doStep`. -/
def stepBody (E : Env) (w : World) : Option World :=
  match updateVisualization w with
  | none => none
  | some w1 =>
    match setPreferredVelocities E w1 with
    | none => none
    | some w2 => some { w2 with sim := w2.sim.doStep E }

/-- The `do { ... } while (!reachedGoal(sim))` loop of `run_simulation_once`;
the second component counts the calls of `doStep` (a counter added for the
proofs). -/
def stepLoop (E : Env) : Nat → World → Option (World × Nat)
  | 0, _ => none
  | fuel + 1, w =>
    match stepBody E w with
    | none => none
    | some w3 =>
      match reachedGoal w3 with
      | none => none
      | some true => some (w3, 1)
      | some false => (stepLoop E fuel w3).map (fun r => (r.1, r.2 + 1))

/-- What one trial leaves behind: the final state (simulator before it is
deleted, goals, generator, the lines of the file) and the two loop counters. -/
structure Trial where
  world : World
  attempts : Nat
  steps : Nat

/-- The function `run_simulation_once`, given the globals it finds (`goals`
of the previous trial, the generator state) and the opened output stream. -/
def run_simulation_once (E : Env) (fuel : Nat) (goals : List Vector2) (rng : RandState)
    (output_file : List Line) : Option Trial :=
  let w0 : World := { sim := RVOSimulator.new, goals := goals, rng := rng, out := output_file }
  let w0 : World := { w0 with goals := [] }
  match setupScenario E fuel w0 with
  | none => none
  | some (w1, attempts) =>
    match stepLoop E fuel w1 with
    | none => none
    | some (w2, steps) =>
      match updateVisualization w2 with
      | none => none
      | some w3 => some { world := w3, attempts := attempts, steps := steps }

/-- The trial loop of `main` for `count` trials, starting from the given
globals; every trial writes into a new, empty file. -/
def runTrials (E : Env) (fuel : Nat) : Nat → List Vector2 → RandState → Option (List Trial)
  | 0, _, _ => some []
  | count + 1, goals, rng =>
    match run_simulation_once E fuel goals rng [] with
    | none => none
    | some t => (runTrials E fuel count t.world.goals t.world.rng).map (fun ts => t :: ts)

/-- The function `main`, from the generator state that `srand` leaves (console
output, `mkdir` and the file names are left out). -/
def main (E : Env) (fuel : Nat) (seeded : RandState) : Option (List Trial) :=
  runTrials E fuel 1500 [] seeded

/-! ## Auxiliary definitions used in the statements -/

/-- The start position `2 * (cos θ, sin θ)` that `setupScenario` computes from
the draw `r`. -/
def startPosition (E : Env) (r : Nat) : Vector2 :=
  ⟨E.cos (scenarioAngle E r) * 2, E.sin (scenarioAngle E r) * 2⟩

/-- The simulator `setupScenario` configures before it adds the agents. -/
def configured (sim : RVOSimulator) : RVOSimulator :=
  (sim.setTimeStep 1.0).setAgentDefaults 15.0 10 5.0 5.0 0.3 1.0

/-- The preferred velocity after the perturbation drawn as `rAngle`, `rDist`
has been added to `v`. -/
def perturbedVelocity (E : Env) (v : Vector2) (rAngle rDist : Nat) : Vector2 :=
  v + perturbDist E rDist *
    (⟨E.cos (perturbAngle E rAngle), E.sin (perturbAngle E rAngle)⟩ : Vector2)

/-- Agent `a` with goal `g` after its turn in `setPreferredVelocities`. -/
def updatedAgent (E : Env) (g : Vector2) (a : Agent) (rAngle rDist : Nat) : Agent :=
  { a with prefVelocity := perturbedVelocity E (goalVelocity E g a.position) rAngle rDist }

/-- The line `updateVisualization` writes in state `w`. -/
def snapshot (w : World) : Line :=
  Line.record w.sim.getGlobalTime (w.sim.agents.map Agent.position)

/-- The states the step loop passes through: `stepIter E j w` is the state
after `j` passes through the loop body from `w`. -/
def stepIter (E : Env) : Nat → World → Option World
  | 0, w => some w
  | n + 1, w =>
    match stepBody E w with
    | none => none
    | some w1 => stepIter E n w1

/-- What holds of the state throughout a trial: two goals, two agents of
radius 0.3, and time step 1. -/
def TrialInv (w : World) : Prop :=
  w.goals.length = 2 ∧ w.sim.agents.length = 2 ∧ w.sim.timeStep = 1 ∧
    ∀ (j : Nat) (a : Agent), w.sim.agents[j]? = some a → a.radius = 0.3

/-- The number of draws a list of trials consumed: `2 * attempts + 4 * steps`
for each of them. -/
def drawsOf (ts : List Trial) : Nat :=
  (ts.map (fun t => 2 * t.attempts + 4 * t.steps)).sum

/-! ## A concrete environment and concrete states, used to exercise the definitions -/

/-- A small environment: `RAND_MAX` of glibc, a two-valued cosine with zero
sine (so that `cos² + sin² = 1`), a square root that is right at 16 and 25,
and a solver that moves every agent to the point opposite to it and leaves it
at rest. -/
def demoEnv : Env :=
  { RAND_MAX := 2147483647
    cos := fun a => if a < 1 then 1 else -1
    sin := fun _ => 0
    sqrt := fun x => if x = 25 then 5 else 4
    solve := fun sim i =>
      match sim.getAgentPosition i with
      | some p => (-p, ⟨0, 0⟩)
      | none => (⟨0, 0⟩, ⟨0, 0⟩) }

/-- A generator that alternates between 0 and `RAND_MAX`. -/
def demoRng : RandState := { seq := fun n => if n % 2 = 0 then 0 else 2147483647, pos := 0 }

/-- The agent the demo scenario registers at `position`. -/
def demoAgent (position prefVelocity : Vector2) : Agent :=
  { position := position, velocity := ⟨0, 0⟩, prefVelocity := prefVelocity, neighborDist := 15,
    maxNeighbors := 10, timeHorizon := 5, timeHorizonObst := 5, radius := 0.3, maxSpeed := 1 }

/-- The simulator of the demo trial with the given time and agents. -/
def demoSim (time : ℚ) (agents : List Agent) : RVOSimulator :=
  { agents := agents, defaults := ⟨15, 10, 5, 5, 0.3, 1⟩, globalTime := time, timeStep := 1 }

/-- The state in which a trial starts: a new simulator, no goals, no output. -/
def demoStart : World :=
  { sim := RVOSimulator.new, goals := [], rng := demoRng, out := [] }

/-- The state `setupScenario` reaches from `demoStart`: agents at (2, 0) and
(-2, 0), goals opposite. -/
def demoSetup : World :=
  { sim := demoSim 0 [demoAgent ⟨2, 0⟩ ⟨0, 0⟩, demoAgent ⟨-2, 0⟩ ⟨0, 0⟩]
    goals := [⟨-2, 0⟩, ⟨2, 0⟩]
    rng := { demoRng with pos := 2 }
    out := [Line.header (-2) 0 0.3 1, Line.header 2 0 0.3 1] }

/-- The trial that `run_simulation_once` produces from generator position
`pos` in the demo environment: one attempt, one step. -/
def demoTrial (pos : Nat) : Trial :=
  { world :=
      { sim := demoSim 1 [demoAgent ⟨-2, 0⟩ ⟨-0.9999, 0⟩, demoAgent ⟨2, 0⟩ ⟨1.0001, 0⟩]
        goals := [⟨-2, 0⟩, ⟨2, 0⟩]
        rng := { demoRng with pos := pos + 6 }
        out := [Line.header (-2) 0 0.3 1, Line.header 2 0 0.3 1,
          Line.record 0 [⟨2, 0⟩, ⟨-2, 0⟩], Line.record 1 [⟨-2, 0⟩, ⟨2, 0⟩]] }
    attempts := 1
    steps := 1 }

/-- A generator whose first pair of draws gives two coincident start positions
and whose second pair gives opposite ones. -/
def retryRng : RandState := { seq := fun n => if n = 3 then 2147483647 else 0, pos := 0 }

/-! ## Basic facts -/

@[simp] theorem Vector2.add_def (a b : Vector2) : a + b = ⟨a.x + b.x, a.y + b.y⟩ := rfl

@[simp] theorem Vector2.sub_def (a b : Vector2) : a - b = ⟨a.x - b.x, a.y - b.y⟩ := rfl

@[simp] theorem Vector2.neg_def (a : Vector2) : -a = ⟨-a.x, -a.y⟩ := rfl

@[simp] theorem Vector2.smul_def (s : ℚ) (a : Vector2) : s * a = ⟨s * a.x, s * a.y⟩ := rfl

theorem M_PI_pos : 0 < M_PI := by norm_num [M_PI]

/-! ## The rejection loop of setupScenario -/

theorem scenarioLoop_spec (E : Env) :
    ∀ (fuel : Nat) (rng : RandState) (s : Scenario), scenarioLoop E fuel rng = some s →
      1 ≤ s.attempts ∧ s.rng = rng.advance (2 * s.attempts) ∧
      s.p1 = startPosition E (rng.seq (rng.pos + 2 * (s.attempts - 1))) ∧
      s.p2 = startPosition E (rng.seq (rng.pos + 2 * (s.attempts - 1) + 1)) ∧
      s.g1 = -s.p1 ∧ s.g2 = -s.p2 ∧
      (0.2 : ℚ) ≤ absSq (s.p1 - s.p2) ∧
      ∀ j, j < s.attempts - 1 →
        absSq (startPosition E (rng.seq (rng.pos + 2 * j)) -
          startPosition E (rng.seq (rng.pos + 2 * j + 1))) < 0.2 := by
  intro fuel
  induction fuel with
  | zero => intro rng s h; simp [scenarioLoop] at h
  | succ fuel ih =>
    intro rng s h
    simp only [scenarioLoop] at h
    split at h
    · rename_i hrej
      rcases hrec : scenarioLoop E fuel (rand (rand rng).2).2 with _ | s0
      · simp [hrec] at h
      · rw [hrec] at h
        simp only [Option.map_some', Option.some.injEq] at h
        obtain ⟨h1, h2, h3, h4, h5, h6, h7, h8⟩ := ih _ _ hrec
        subst h
        have hk : s0.attempts + 1 - 1 = (s0.attempts - 1) + 1 := by omega
        refine ⟨by simp, ?_, ?_, ?_, h5, h6, h7, ?_⟩
        · simp only [h2, RandState.advance, rand]
          congr 1; ring
        · simp only [h3, rand, hk]
          congr 2; ring
        · simp only [h4, rand, hk]
          congr 2; ring
        · intro j hj
          simp only [hk] at hj
          rcases Nat.eq_zero_or_pos j with hj0 | hjpos
          · subst hj0
            simpa [startPosition, rand] using hrej
          · have := h8 (j - 1) (by omega)
            simp only [rand] at this
            have e1 : rng.pos + 1 + 1 + 2 * (j - 1) = rng.pos + 2 * j := by omega
            rw [e1] at this
            exact this
    · rename_i hacc
      simp only [Option.some.injEq] at h
      subst h
      refine ⟨le_refl _, ?_, ?_, ?_, ?_, ?_, ?_, ?_⟩
      · simp [RandState.advance, rand]
      · simp [startPosition, rand]
      · simp [startPosition, rand]
      · simp
      · simp
      · exact not_lt.mp hacc
      · intro j hj; simp at hj

theorem setupScenario_spec (E : Env) (fuel : Nat) (w w1 : World) (k : Nat)
    (h : setupScenario E fuel w = some (w1, k)) :
    ∃ s, scenarioLoop E fuel w.rng = some s ∧ k = s.attempts ∧
      w1.sim = ((configured w.sim).addAgent s.p1).addAgent s.p2 ∧
      w1.goals = w.goals ++ [s.g1, s.g2] ∧ w1.rng = s.rng ∧
      w1.out = w.out ++ [Line.header s.g1.x s.g1.y 0.3 1.0, Line.header s.g2.x s.g2.y 0.3 1.0] := by
  unfold setupScenario at h
  rcases hs : scenarioLoop E fuel w.rng with _ | s
  · simp [hs] at h
  · simp only [hs, Option.some.injEq, Prod.mk.injEq] at h
    obtain ⟨hw, hk⟩ := h
    subst hw
    exact ⟨s, rfl, hk.symm, rfl, by simp, rfl, by simp⟩

/-! ## Claims about setupScenario -/

/-- C2: whenever `setupScenario` returns, the two goals it pushes are the exact
negations of the two positions it passes to `addAgent`, component by
component; with `goals` empty on entry they sit at indices 0 and 1. -/
theorem setupScenario_goal_eq_neg_start (E : Env) (fuel : Nat) (w w1 : World) (k : Nat)
    (h : setupScenario E fuel w = some (w1, k)) :
    ∃ p1 p2 : Vector2,
      w1.sim = ((configured w.sim).addAgent p1).addAgent p2 ∧
      w1.goals = w.goals ++ [-p1, -p2] ∧
      (-p1).x = -p1.x ∧ (-p1).y = -p1.y ∧ (-p2).x = -p2.x ∧ (-p2).y = -p2.y ∧
      (w.goals = [] → w1.goals[0]? = some (-p1) ∧ w1.goals[1]? = some (-p2)) := by
  obtain ⟨s, hs, -, hsim, hgoals, -, -⟩ := setupScenario_spec E fuel w w1 k h
  obtain ⟨-, -, -, -, hg1, hg2, -, -⟩ := scenarioLoop_spec E fuel w.rng s hs
  refine ⟨s.p1, s.p2, hsim, ?_, rfl, rfl, rfl, rfl, ?_⟩
  · rw [hgoals, hg1, hg2]
  · intro hnil
    rw [hgoals, hg1, hg2, hnil]
    simp

/-- C3: whenever the rejection loop of `setupScenario` exits, after `k ≥ 1`
iterations, the two registered start positions are at squared distance at
least 0.2, they are computed from the last two draws (draws `2k-2` and `2k-1`
from the entry state), every earlier iteration drew a fresh pair of angles
that was rejected, and exactly `2k` draws were consumed. -/
theorem setupScenario_start_separation (E : Env) (fuel : Nat) (w w1 : World) (k : Nat)
    (h : setupScenario E fuel w = some (w1, k)) :
    ∃ p1 p2 : Vector2,
      w1.sim = ((configured w.sim).addAgent p1).addAgent p2 ∧
      (0.2 : ℚ) ≤ absSq (p1 - p2) ∧
      1 ≤ k ∧
      p1 = startPosition E (w.rng.seq (w.rng.pos + 2 * (k - 1))) ∧
      p2 = startPosition E (w.rng.seq (w.rng.pos + 2 * (k - 1) + 1)) ∧
      w1.rng = w.rng.advance (2 * k) ∧
      ∀ j, j < k - 1 →
        absSq (startPosition E (w.rng.seq (w.rng.pos + 2 * j)) -
          startPosition E (w.rng.seq (w.rng.pos + 2 * j + 1))) < 0.2 := by
  obtain ⟨s, hs, hk, hsim, -, hrng, -⟩ := setupScenario_spec E fuel w w1 k h
  obtain ⟨h1, h2, h3, h4, -, -, h7, h8⟩ := scenarioLoop_spec E fuel w.rng s hs
  subst hk
  exact ⟨s.p1, s.p2, hsim, h7, h1, h3, h4, hrng.trans h2, h8⟩

theorem absSq_normalize (E : Env) (d : Vector2) (hd : 1 < absSq d)
    (hsqrt : E.sqrt (absSq d) * E.sqrt (absSq d) = absSq d) : absSq (normalize E d) = 1 := by
  have hs : E.sqrt (absSq d) ≠ 0 := by
    intro h0
    rw [h0] at hsqrt
    linarith
  have hd2 : d.x * d.x + d.y * d.y = E.sqrt (absSq d) * E.sqrt (absSq d) := by
    rw [hsqrt]; rfl
  have hsplit : absSq (normalize E d)
      = (d.x * d.x + d.y * d.y) / (E.sqrt (absSq d) * E.sqrt (absSq d)) := by
    simp only [normalize, abs, absSq]
    field_simp
  rw [hsplit, ← hd2]
  exact div_self (by rw [hd2]; exact mul_ne_zero hs hs)

theorem getElem?_some_of_lt {α : Type} (l : List α) (i : Nat) (h : i < l.length) :
    ∃ a, l[i]? = some a :=
  ⟨l[i], List.getElem?_eq_getElem h⟩

theorem lt_length_of_getElem?_some {α : Type} (l : List α) (i : Nat) (a : α)
    (h : l[i]? = some a) : i < l.length := by
  rcases Nat.lt_or_ge i l.length with hlt | hge
  · exact hlt
  · rw [List.getElem?_eq_none hge] at h; cases h

theorem reachedGoalFrom_step (sim : RVOSimulator) (goals : List Vector2) (k i : Nat)
    (a : Agent) (g : Vector2) (ha : sim.agents[i]? = some a) (hg : goals[i]? = some g) :
    reachedGoalFrom sim goals (k + 1) i =
      if absSq (a.position - g) > a.radius * a.radius then some false
      else reachedGoalFrom sim goals k (i + 1) := by
  simp [reachedGoalFrom, RVOSimulator.getAgentPosition, RVOSimulator.getAgentRadius, ha, hg]

theorem reachedGoalFrom_spec (sim : RVOSimulator) (goals : List Vector2) :
    ∀ (k i : Nat), i + k ≤ sim.agents.length → i + k ≤ goals.length →
      ∃ b, reachedGoalFrom sim goals k i = some b ∧
        (b = true ↔ ∀ j a g, i ≤ j → j < i + k → sim.agents[j]? = some a → goals[j]? = some g →
          absSq (a.position - g) ≤ a.radius * a.radius) := by
  intro k
  induction k with
  | zero =>
    intro i _ _
    refine ⟨true, rfl, ?_⟩
    simp only [true_iff]
    intro j a g h1 h2; omega
  | succ k ih =>
    intro i h1 h2
    obtain ⟨a, ha⟩ := getElem?_some_of_lt sim.agents i (by omega)
    obtain ⟨g, hg⟩ := getElem?_some_of_lt goals i (by omega)
    rw [reachedGoalFrom_step sim goals k i a g ha hg]
    by_cases hv : absSq (a.position - g) > a.radius * a.radius
    · rw [if_pos hv]
      refine ⟨false, rfl, ?_⟩
      constructor
      · intro h; cases h
      · intro h
        have := h i a g (le_refl _) (by omega) ha hg
        exact absurd hv (not_lt.mpr this)
    · rw [if_neg hv]
      obtain ⟨b, hb, hiff⟩ := ih (i + 1) (by omega) (by omega)
      refine ⟨b, hb, ?_⟩
      rw [hiff]
      constructor
      · intro h j a1 g1 hij hjk ha1 hg1
        rcases Nat.eq_or_lt_of_le hij with heq | hlt
        · subst heq
          rw [ha] at ha1; rw [hg] at hg1
          cases ha1; cases hg1
          exact not_lt.mp hv
        · exact h j a1 g1 hlt (by omega) ha1 hg1
      · intro h j a1 g1 hij hjk ha1 hg1
        exact h j a1 g1 (by omega) (by omega) ha1 hg1

theorem reachedGoalFrom_first_violation (sim : RVOSimulator) (goals : List Vector2)
    (m : Nat) (a : Agent) (g : Vector2)
    (ha : sim.agents[m]? = some a) (hg : goals[m]? = some g)
    (hv : absSq (a.position - g) > a.radius * a.radius) :
    ∀ (k i : Nat), i ≤ m → m < i + k →
      (∀ j, i ≤ j → j < m → ∃ b h, sim.agents[j]? = some b ∧ goals[j]? = some h ∧
        absSq (b.position - h) ≤ b.radius * b.radius) →
      reachedGoalFrom sim goals k i = some false := by
  intro k
  induction k with
  | zero => intro i h1 h2; omega
  | succ k ih =>
    intro i h1 h2 hpre
    rcases Nat.eq_or_lt_of_le h1 with heq | hlt
    · subst heq
      rw [reachedGoalFrom_step sim goals k i a g ha hg, if_pos hv]
    · obtain ⟨b, h, hb, hh, hpass⟩ := hpre i (le_refl _) hlt
      rw [reachedGoalFrom_step sim goals k i b h hb hh, if_neg (not_lt.mpr hpass)]
      exact ih (i + 1) (by omega) (by omega) (fun j hj1 hj2 => hpre j (by omega) hj2)

/-- C1: with one goal per agent, `reachedGoal` returns a value, and it returns
`true` exactly when every agent is at squared distance at most its squared
radius from its goal. Moreover (with no assumption on the agents and goals
after index `i`) it returns `false` when agent `i` is the first to violate the
test, whatever follows index `i`. -/
theorem reachedGoal_iff_all_within_radius (w : World) :
    (w.goals.length = w.sim.getNumAgents →
      ∃ b, reachedGoal w = some b ∧
        (b = true ↔ ∀ (i : Nat) (a : Agent) (g : Vector2), i < w.sim.getNumAgents →
          w.sim.agents[i]? = some a →
          w.goals[i]? = some g → absSq (a.position - g) ≤ a.radius * a.radius)) ∧
    (∀ (i : Nat) (a : Agent) (g : Vector2), w.sim.agents[i]? = some a → w.goals[i]? = some g →
      absSq (a.position - g) > a.radius * a.radius →
      (∀ j, j < i → ∃ (b : Agent) (h : Vector2), w.sim.agents[j]? = some b ∧ w.goals[j]? = some h ∧
        absSq (b.position - h) ≤ b.radius * b.radius) →
      reachedGoal w = some false) := by
  constructor
  · intro hlen
    obtain ⟨b, hb, hiff⟩ := reachedGoalFrom_spec w.sim w.goals w.sim.getNumAgents 0
      (by simp [RVOSimulator.getNumAgents]) (by simp [hlen])
    refine ⟨b, hb, ?_⟩
    rw [hiff]
    constructor
    · intro h i a g hi ha hg
      exact h i a g (Nat.zero_le _) (by omega) ha hg
    · intro h j a g _ hj ha hg
      exact h j a g (by omega) ha hg
  · intro i a g ha hg hv hpre
    have hi := lt_length_of_getElem?_some _ _ _ ha
    exact reachedGoalFrom_first_violation w.sim w.goals i a g ha hg hv w.sim.getNumAgents 0
      (Nat.zero_le _) (by simpa [RVOSimulator.getNumAgents] using hi)
      (fun j _ hj => hpre j hj)

/-! ## setPreferredVelocities -/

theorem setPreferredVelocity_spec (E : Env) (goals : List Vector2) (i : Nat)
    (sim : RVOSimulator) (rng : RandState) (a : Agent) (g : Vector2)
    (ha : sim.agents[i]? = some a) (hg : goals[i]? = some g) :
    setPreferredVelocity E goals i sim rng =
      some ({ sim with agents := (sim.agents.set i
                (updatedAgent E g a (rng.seq rng.pos) (rng.seq (rng.pos + 1)))) },
            rng.advance 2) := by
  have hi := lt_length_of_getElem?_some _ _ _ ha
  simp [setPreferredVelocity, seekGoal, perturb, hg, ha, RVOSimulator.getAgentPosition,
    RVOSimulator.setAgentPrefVelocity, RVOSimulator.getAgentPrefVelocity, List.getElem?_set, hi,
    updatedAgent, perturbedVelocity, rand, RandState.advance]

theorem setPreferredVelocitiesFrom_spec (E : Env) (goals : List Vector2) :
    ∀ (k i : Nat) (sim : RVOSimulator) (rng : RandState),
      i + k ≤ sim.agents.length → i + k ≤ goals.length →
      ∃ sim1, setPreferredVelocitiesFrom E goals k i sim rng = some (sim1, rng.advance (2 * k)) ∧
        sim1.defaults = sim.defaults ∧ sim1.globalTime = sim.globalTime ∧
        sim1.timeStep = sim.timeStep ∧ sim1.agents.length = sim.agents.length ∧
        (∀ (j : Nat) (a : Agent), sim.agents[j]? = some a → (j < i ∨ i + k ≤ j) →
          sim1.agents[j]? = some a) ∧
        (∀ (j : Nat) (a : Agent) (g : Vector2), sim.agents[j]? = some a → goals[j]? = some g →
          i ≤ j → j < i + k →
          sim1.agents[j]? = some (updatedAgent E g a (rng.seq (rng.pos + 2 * (j - i)))
            (rng.seq (rng.pos + 2 * (j - i) + 1)))) := by
  intro k
  induction k with
  | zero =>
    intro i sim rng _ _
    refine ⟨sim, ?_, rfl, rfl, rfl, rfl, fun j a ha _ => ha, ?_⟩
    · simp [setPreferredVelocitiesFrom, RandState.advance]
    · intro j a g _ _ h1 h2; omega
  | succ k ih =>
    intro i sim rng h1 h2
    obtain ⟨a, ha⟩ := getElem?_some_of_lt sim.agents i (by omega)
    obtain ⟨g, hg⟩ := getElem?_some_of_lt goals i (by omega)
    have hbody := setPreferredVelocity_spec E goals i sim rng a g ha hg
    have hi : i < sim.agents.length := by omega
    obtain ⟨sim1, hrun, hd, ht, hts, hlen, hkeep, hupd⟩ :=
      ih (i + 1) { sim with agents := (sim.agents.set i
          (updatedAgent E g a (rng.seq rng.pos) (rng.seq (rng.pos + 1)))) } (rng.advance 2)
        (by simp only [List.length_set]; omega) (by omega)
    refine ⟨sim1, ?_, hd, ht, hts, ?_, ?_, ?_⟩
    · simp only [setPreferredVelocitiesFrom, hbody, hrun]
      simp only [RandState.advance, Option.some.injEq, Prod.mk.injEq, true_and]
      congr 1; ring
    · rw [hlen, List.length_set]
    · intro j b hb hj
      apply hkeep j b _ (by omega)
      have hne : i ≠ j := by omega
      simp only [List.getElem?_set_ne hne, hb]
    · intro j b h hb hh hij hjk
      rcases Nat.eq_or_lt_of_le hij with heq | hlt
      · subst heq
        rw [ha] at hb; rw [hg] at hh
        cases hb; cases hh
        have := hkeep i (updatedAgent E g a (rng.seq rng.pos) (rng.seq (rng.pos + 1)))
          (by simp [List.getElem?_set, hi]) (Or.inl (Nat.lt_succ_self i))
        simpa using this
      · have hne : i ≠ j := by omega
        have := hupd j b h (by simp only [List.getElem?_set_ne hne, hb]) hh (by omega) (by omega)
        have e1 : (rng.advance 2).pos + 2 * (j - (i + 1)) = rng.pos + 2 * (j - i) := by
          simp only [RandState.advance]; omega
        have e2 : (rng.advance 2).seq = rng.seq := rfl
        rw [e1, e2] at this
        exact this

theorem castInt_toNat_le (n : Nat) : (castInt n).toNat ≤ n := by
  unfold castInt
  split <;> omega

theorem castInt_toNat_of_lt (n : Nat) (h : n < 2147483648) : (castInt n).toNat = n := by
  unfold castInt
  split <;> omega

theorem setPreferredVelocities_spec (E : Env) (w : World)
    (hlen : w.goals.length = w.sim.getNumAgents) :
    ∃ w1, setPreferredVelocities E w = some w1 ∧
      w1.goals = w.goals ∧ w1.out = w.out ∧
      w1.rng = w.rng.advance (2 * (castInt w.sim.getNumAgents).toNat) ∧
      w1.sim.defaults = w.sim.defaults ∧ w1.sim.globalTime = w.sim.globalTime ∧
      w1.sim.timeStep = w.sim.timeStep ∧ w1.sim.getNumAgents = w.sim.getNumAgents ∧
      (∀ (j : Nat) (a : Agent) (g : Vector2), w.sim.agents[j]? = some a → w.goals[j]? = some g →
        j < (castInt w.sim.getNumAgents).toNat →
        w1.sim.agents[j]? = some (updatedAgent E g a (w.rng.seq (w.rng.pos + 2 * j))
          (w.rng.seq (w.rng.pos + 2 * j + 1)))) ∧
      (∀ (j : Nat) (a : Agent), w.sim.agents[j]? = some a →
        ∃ b, w1.sim.agents[j]? = some b ∧ b.radius = a.radius ∧ b.position = a.position) := by
  have hc := castInt_toNat_le w.sim.getNumAgents
  have hn : w.sim.getNumAgents = w.sim.agents.length := rfl
  obtain ⟨sim1, hrun, hd, ht, hts, hl, hkeep, hupd⟩ :=
    setPreferredVelocitiesFrom_spec E w.goals (castInt w.sim.getNumAgents).toNat 0 w.sim w.rng
      (by omega) (by omega)
  refine ⟨{ w with sim := sim1, rng := w.rng.advance (2 * (castInt w.sim.getNumAgents).toNat) },
    ?_, rfl, rfl, rfl, hd, ht, hts, hl, ?_, ?_⟩
  · simp [setPreferredVelocities, hrun]
  · intro j a g ha hg hj
    have := hupd j a g ha hg (Nat.zero_le _) (by omega)
    simpa using this
  · intro j a ha
    rcases Nat.lt_or_ge j (castInt w.sim.getNumAgents).toNat with hj | hj
    · obtain ⟨g, hg⟩ := getElem?_some_of_lt w.goals j (by omega)
      have := hupd j a g ha hg (Nat.zero_le _) (by omega)
      exact ⟨_, this, rfl, rfl⟩
    · exact ⟨a, hkeep j a ha (Or.inr (by omega)), rfl, rfl⟩

theorem perturbDist_range (E : Env) (r : Nat) (hr : r ≤ E.RAND_MAX) :
    0 ≤ perturbDist E r ∧ perturbDist E r ≤ 0.0001 := by
  unfold perturbDist
  constructor
  · positivity
  · rcases Nat.eq_zero_or_pos E.RAND_MAX with h0 | hpos
    · rw [h0]; norm_num
    · have hR : (0 : ℚ) < (E.RAND_MAX : ℚ) := by exact_mod_cast hpos
      rw [div_le_iff₀ hR]
      have : (r : ℚ) ≤ (E.RAND_MAX : ℚ) := by exact_mod_cast hr
      nlinarith

theorem positionsFrom_spec (sim : RVOSimulator) :
    ∀ (k i : Nat), i + k = sim.agents.length →
      positionsFrom sim k i = some ((sim.agents.drop i).map Agent.position) := by
  intro k
  induction k with
  | zero =>
    intro i h
    have : sim.agents.drop i = [] := List.drop_eq_nil_of_le (by omega)
    simp [positionsFrom, this]
  | succ k ih =>
    intro i h
    have hi : i < sim.agents.length := by omega
    have hd : sim.agents.drop i = sim.agents[i] :: sim.agents.drop (i + 1) :=
      List.drop_eq_getElem_cons hi
    rw [hd]
    simp only [positionsFrom, RVOSimulator.getAgentPosition, List.getElem?_eq_getElem hi,
      ih (i + 1) (by omega), Option.map_some', List.map_cons]

theorem updateVisualization_spec (w : World) :
    updateVisualization w = some { w with out := w.out ++ [snapshot w] } := by
  have := positionsFrom_spec w.sim w.sim.getNumAgents 0 (by simp [RVOSimulator.getNumAgents])
  simp [updateVisualization, this, snapshot]

theorem moveAgents_length (E : Env) (sim : RVOSimulator) :
    ∀ (l : List Agent) (i : Nat), (moveAgents E sim i l).length = l.length := by
  intro l
  induction l with
  | nil => intro i; simp [moveAgents]
  | cons a rest ih => intro i; simp [moveAgents, ih]

theorem moveAgents_getElem? (E : Env) (sim : RVOSimulator) :
    ∀ (l : List Agent) (i j : Nat) (b : Agent), (moveAgents E sim i l)[j]? = some b →
      ∃ a, l[j]? = some a ∧
        b = { a with position := (E.solve sim (i + j)).1, velocity := (E.solve sim (i + j)).2 } := by
  intro l
  induction l with
  | nil => intro i j b h; simp [moveAgents] at h
  | cons a rest ih =>
    intro i j b h
    cases j with
    | zero =>
      simp only [moveAgents, List.getElem?_cons_zero, Option.some.injEq] at h
      exact ⟨a, by simp, h.symm⟩
    | succ j =>
      simp only [moveAgents, List.getElem?_cons_succ] at h
      obtain ⟨a1, ha1, hb⟩ := ih (i + 1) j b h
      refine ⟨a1, by simpa using ha1, ?_⟩
      rw [hb]
      have : i + 1 + j = i + (j + 1) := by omega
      rw [this]

theorem doStep_getNumAgents (E : Env) (sim : RVOSimulator) :
    (sim.doStep E).getNumAgents = sim.getNumAgents := by
  simp [RVOSimulator.doStep, RVOSimulator.getNumAgents, moveAgents_length]

/-! ## One trial -/

theorem stepBody_spec (E : Env) (w : World) (hlen : w.goals.length = w.sim.getNumAgents) :
    ∃ w1, stepBody E w = some w1 ∧ w1.goals = w.goals ∧
      w1.rng = w.rng.advance (2 * (castInt w.sim.getNumAgents).toNat) ∧
      w1.out = w.out ++ [snapshot w] ∧
      w1.sim.getNumAgents = w.sim.getNumAgents ∧
      w1.sim.timeStep = w.sim.timeStep ∧
      w1.sim.globalTime = w.sim.globalTime + w.sim.timeStep ∧
      (∀ (j : Nat) (b : Agent), w1.sim.agents[j]? = some b →
        ∃ a, w.sim.agents[j]? = some a ∧ b.radius = a.radius) := by
  obtain ⟨w2, hrun, hgoals, hout, hrng, -, htime, hts, hn, -, hrad⟩ :=
    setPreferredVelocities_spec E { w with out := w.out ++ [snapshot w] } hlen
  refine ⟨{ w2 with sim := w2.sim.doStep E }, ?_, hgoals, hrng, hout, ?_, ?_, ?_, ?_⟩
  · simp [stepBody, updateVisualization_spec, hrun]
  · simp only [doStep_getNumAgents]; exact hn
  · simpa [RVOSimulator.doStep] using hts
  · simp only [RVOSimulator.doStep]
    rw [htime, hts]
  · intro j b hb
    simp only [RVOSimulator.doStep] at hb
    obtain ⟨a2, ha2, hb2⟩ := moveAgents_getElem? E w2.sim w2.sim.agents 0 j b hb
    have hj : j < w.sim.agents.length := by
      have := lt_length_of_getElem?_some _ _ _ ha2
      have e : w2.sim.agents.length = w.sim.agents.length := hn
      omega
    obtain ⟨a, ha⟩ := getElem?_some_of_lt w.sim.agents j hj
    obtain ⟨b1, hb1, hr1, -⟩ := hrad j a ha
    rw [hb1] at ha2
    cases ha2
    exact ⟨a, ha, by rw [hb2]; exact hr1⟩

theorem stepBody_inv (E : Env) (w : World) (hinv : TrialInv w) :
    ∃ w1, stepBody E w = some w1 ∧ TrialInv w1 ∧ w1.goals = w.goals ∧
      w1.rng = w.rng.advance 4 ∧ w1.out = w.out ++ [snapshot w] ∧
      w1.sim.globalTime = w.sim.globalTime + 1 := by
  obtain ⟨hg, ha, hts, hr⟩ := hinv
  have hlen : w.goals.length = w.sim.getNumAgents := by
    rw [hg]; exact ha.symm
  obtain ⟨w1, hrun, hgoals, hrng, hout, hn, hts1, htime, hrad⟩ := stepBody_spec E w hlen
  have hn2 : w.sim.getNumAgents = 2 := ha
  refine ⟨w1, hrun, ⟨by rw [hgoals]; exact hg, by rw [← hn2]; exact hn, by rw [hts1]; exact hts, ?_⟩,
    hgoals, ?_, hout, ?_⟩
  · intro j b hb
    obtain ⟨a, ha1, hba⟩ := hrad j b hb
    rw [hba]; exact hr j a ha1
  · rw [hrng, hn2]; rfl
  · rw [htime, hts]

theorem stepIter_inv (E : Env) :
    ∀ (n : Nat) (w : World), TrialInv w →
      ∃ w1, stepIter E n w = some w1 ∧ TrialInv w1 ∧ w1.goals = w.goals ∧
        w1.rng = w.rng.advance (4 * n) ∧
        w1.sim.globalTime = w.sim.globalTime + n ∧
        ∃ records : List Line, w1.out = w.out ++ records ∧ records.length = n ∧
          ∀ j, j < n → ∃ wj, stepIter E j w = some wj ∧ records[j]? = some (snapshot wj) := by
  intro n
  induction n with
  | zero =>
    intro w hinv
    refine ⟨w, rfl, hinv, rfl, ?_, by simp, [], by simp, rfl, ?_⟩
    · simp [RandState.advance]
    · intro j hj; omega
  | succ n ih =>
    intro w hinv
    obtain ⟨w1, hrun, hinv1, hgoals1, hrng1, hout1, htime1⟩ := stepBody_inv E w hinv
    obtain ⟨w2, hrun2, hinv2, hgoals2, hrng2, htime2, recs, hout2, hlen2, hrec2⟩ := ih w1 hinv1
    refine ⟨w2, ?_, hinv2, hgoals2.trans hgoals1, ?_, ?_, snapshot w :: recs, ?_, ?_, ?_⟩
    · simp only [stepIter, hrun, hrun2]
    · rw [hrng2, hrng1]
      simp only [RandState.advance]
      congr 1; ring
    · rw [htime2, htime1]; push_cast; ring
    · rw [hout2, hout1]; simp
    · simp [hlen2]
    · intro j hj
      cases j with
      | zero => exact ⟨w, rfl, by simp⟩
      | succ j =>
        obtain ⟨wj, hwj, hrj⟩ := hrec2 j (by omega)
        refine ⟨wj, ?_, by simpa using hrj⟩
        simp only [stepIter, hrun, hwj]

theorem stepLoop_spec (E : Env) :
    ∀ (fuel : Nat) (w w1 : World) (n : Nat), stepLoop E fuel w = some (w1, n) →
      1 ≤ n ∧ n ≤ fuel ∧ stepIter E n w = some w1 ∧ reachedGoal w1 = some true ∧
      ∀ j wj, 1 ≤ j → j < n → stepIter E j w = some wj → reachedGoal wj = some false := by
  intro fuel
  induction fuel with
  | zero => intro w w1 n h; simp [stepLoop] at h
  | succ fuel ih =>
    intro w w1 n h
    simp only [stepLoop] at h
    rcases hb : stepBody E w with _ | w3
    · simp [hb] at h
    · simp only [hb] at h
      rcases hr : reachedGoal w3 with _ | b
      · simp [hr] at h
      · cases b with
        | true =>
          simp only [hr, Option.some.injEq, Prod.mk.injEq] at h
          obtain ⟨h1, h2⟩ := h
          subst h1; subst h2
          refine ⟨le_refl _, by omega, by simp [stepIter, hb], hr, ?_⟩
          intro j wj h1 h2; omega
        | false =>
          simp only [hr] at h
          rcases hrec : stepLoop E fuel w3 with _ | r
          · simp [hrec] at h
          · obtain ⟨w4, m⟩ := r
            simp only [hrec, Option.map_some', Option.some.injEq, Prod.mk.injEq] at h
            obtain ⟨h1, h2⟩ := h
            subst h1; subst h2
            obtain ⟨i1, i2, i3, i4, i5⟩ := ih w3 w4 m hrec
            refine ⟨by omega, by omega, by simp [stepIter, hb, i3], i4, ?_⟩
            intro j wj hj1 hj2 hwj
            cases j with
            | zero => omega
            | succ j =>
              simp only [stepIter, hb] at hwj
              cases j with
              | zero =>
                simp only [stepIter, Option.some.injEq] at hwj
                subst hwj; exact hr
              | succ j => exact i5 (j + 1) wj (by omega) (by omega) hwj

theorem setupScenario_fresh (E : Env) (fuel : Nat) (rng : RandState) (out : List Line)
    (w1 : World) (k : Nat)
    (h : setupScenario E fuel { sim := RVOSimulator.new, goals := [], rng := rng, out := out }
      = some (w1, k)) :
    TrialInv w1 ∧ w1.sim.globalTime = 0 ∧ 1 ≤ k ∧ w1.rng = rng.advance (2 * k) ∧
      ∃ g1 g2 : Vector2, w1.goals = [g1, g2] ∧
        w1.out = out ++ [Line.header g1.x g1.y 0.3 1.0, Line.header g2.x g2.y 0.3 1.0] := by
  obtain ⟨s, hs, hk, hsim, hgoals, hrng, hout⟩ := setupScenario_spec E fuel _ w1 k h
  obtain ⟨h1, h2, -, -, -, -, -, -⟩ := scenarioLoop_spec E fuel _ s hs
  simp only [List.nil_append] at hgoals
  refine ⟨⟨by rw [hgoals]; rfl, by rw [hsim]; rfl, ?_, ?_⟩, by rw [hsim]; rfl, by rw [hk]; exact h1,
    by rw [hrng, h2, hk], s.g1, s.g2, hgoals, hout⟩
  · rw [hsim]
    norm_num [configured, RVOSimulator.addAgent, RVOSimulator.setAgentDefaults,
      RVOSimulator.setTimeStep, RVOSimulator.new]
  · intro j a ha
    rw [hsim] at ha
    simp only [configured, RVOSimulator.addAgent, RVOSimulator.setAgentDefaults,
      RVOSimulator.setTimeStep, RVOSimulator.new, List.nil_append, List.singleton_append] at ha
    rcases j with _ | _ | j
    · simp only [List.getElem?_cons_zero, Option.some.injEq] at ha
      rw [← ha]
    · simp only [List.getElem?_cons_succ, List.getElem?_cons_zero, Option.some.injEq] at ha
      rw [← ha]
    · simp at ha

theorem run_simulation_once_spec (E : Env) (fuel : Nat) (goals : List Vector2) (rng : RandState)
    (out : List Line) (t : Trial) (h : run_simulation_once E fuel goals rng out = some t) :
    ∃ w1 w2, setupScenario E fuel { sim := RVOSimulator.new, goals := [], rng := rng, out := out }
        = some (w1, t.attempts) ∧
      stepLoop E fuel w1 = some (w2, t.steps) ∧
      t.world = { w2 with out := w2.out ++ [snapshot w2] } := by
  unfold run_simulation_once at h
  simp only [] at h
  rcases hs : setupScenario E fuel
    { sim := RVOSimulator.new, goals := [], rng := rng, out := out } with _ | r
  · simp [hs] at h
  · obtain ⟨w1, k⟩ := r
    simp only [hs] at h
    rcases hl : stepLoop E fuel w1 with _ | r2
    · simp [hl] at h
    · obtain ⟨w2, n⟩ := r2
      simp only [hl, updateVisualization_spec, Option.some.injEq] at h
      subst h
      exact ⟨w1, w2, rfl, hl, rfl⟩

/-- Everything the proofs need about one trial that returned. -/
theorem run_simulation_once_trace (E : Env) (fuel : Nat) (goals : List Vector2) (rng : RandState)
    (out : List Line) (t : Trial) (h : run_simulation_once E fuel goals rng out = some t) :
    ∃ w1 w2 : World,
      setupScenario E fuel { sim := RVOSimulator.new, goals := [], rng := rng, out := out }
        = some (w1, t.attempts) ∧
      stepLoop E fuel w1 = some (w2, t.steps) ∧
      stepIter E t.steps w1 = some w2 ∧
      t.world = { w2 with out := w2.out ++ [snapshot w2] } ∧
      TrialInv w1 ∧ TrialInv w2 ∧ w2.goals = w1.goals ∧
      1 ≤ t.attempts ∧ 1 ≤ t.steps ∧
      w2.rng = rng.advance (2 * t.attempts + 4 * t.steps) ∧
      reachedGoal w2 = some true ∧
      w2.sim.globalTime = t.steps ∧
      ∃ (g1 g2 : Vector2) (records : List Line), w1.goals = [g1, g2] ∧
        w2.out = out ++ [Line.header g1.x g1.y 0.3 1.0, Line.header g2.x g2.y 0.3 1.0]
          ++ records ∧
        records.length = t.steps ∧
        ∀ j, j < t.steps → ∃ wj, stepIter E j w1 = some wj ∧ records[j]? = some (snapshot wj) := by
  obtain ⟨w1, w2, hs, hl, ht⟩ := run_simulation_once_spec E fuel goals rng out t h
  obtain ⟨hinv1, htime1, hk, hrng1, g1, g2, hgoals1, hout1⟩ :=
    setupScenario_fresh E fuel rng out w1 t.attempts hs
  obtain ⟨hn, -, hiter, hreached, -⟩ := stepLoop_spec E fuel w1 w2 t.steps hl
  obtain ⟨w3, hiter3, hinv3, hgoals3, hrng3, htime3, recs, hout3, hlen3, hrec3⟩ :=
    stepIter_inv E t.steps w1 hinv1
  rw [hiter] at hiter3
  cases hiter3
  refine ⟨w1, w2, hs, hl, hiter, ht, hinv1, hinv3, hgoals3, hk, hn, ?_, hreached, ?_,
    g1, g2, recs, hgoals1, ?_, hlen3, hrec3⟩
  · rw [hrng3, hrng1]
    simp only [RandState.advance]
    congr 1; ring
  · rw [htime3, htime1]; ring
  · rw [hout3, hout1]

theorem runTrials_spec (E : Env) (fuel : Nat) :
    ∀ (count : Nat) (goals : List Vector2) (rng : RandState) (ts : List Trial),
      runTrials E fuel count goals rng = some ts →
      ts.length = count ∧
      ∀ (j : Nat) (t : Trial), ts[j]? = some t →
        ∃ gj, run_simulation_once E fuel gj (rng.advance (drawsOf (ts.take j))) [] = some t := by
  intro count
  induction count with
  | zero =>
    intro goals rng ts h
    simp only [runTrials, Option.some.injEq] at h
    subst h
    exact ⟨rfl, fun j t hj => by simp at hj⟩
  | succ count ih =>
    intro goals rng ts h
    simp only [runTrials] at h
    rcases h1 : run_simulation_once E fuel goals rng [] with _ | t1
    · simp [h1] at h
    · simp only [h1] at h
      rcases h2 : runTrials E fuel count t1.world.goals t1.world.rng with _ | rest
      · simp [h2] at h
      · simp only [h2, Option.map_some', Option.some.injEq] at h
        subst h
        obtain ⟨hlen, hrest⟩ := ih _ _ _ h2
        obtain ⟨-, w2, -, -, -, ht1, -, -, -, -, -, hrng1, -⟩ :=
          run_simulation_once_trace E fuel goals rng [] t1 h1
        have hrng : t1.world.rng = rng.advance (2 * t1.attempts + 4 * t1.steps) := by
          rw [ht1]; exact hrng1
        refine ⟨by simp [hlen], ?_⟩
        intro j t hj
        cases j with
        | zero =>
          simp only [List.getElem?_cons_zero, Option.some.injEq] at hj
          subst hj
          refine ⟨goals, ?_⟩
          have : rng.advance (drawsOf (List.take 0 (t1 :: rest))) = rng := by
            simp [drawsOf, RandState.advance]
          rw [this]; exact h1
        | succ j =>
          simp only [List.getElem?_cons_succ] at hj
          obtain ⟨gj, hgj⟩ := hrest j t hj
          refine ⟨gj, ?_⟩
          have : rng.advance (drawsOf (List.take (j + 1) (t1 :: rest)))
              = t1.world.rng.advance (drawsOf (List.take j rest)) := by
            rw [hrng]
            simp only [drawsOf, RandState.advance, List.take_succ_cons, List.map_cons,
              List.sum_cons]
            congr 1; ring
          rw [this]; exact hgj

theorem main_eq_runTrials (E : Env) (fuel : Nat) (seeded : RandState) :
    main E fuel seeded = runTrials E fuel 1500 [] seeded := rfl

/-! ## Claims about one trial and about the batch -/

/-- C5: a trial that returns after `n` passes through the step loop has
`n ≥ 1`, and it appends to its file exactly two header lines (goal, radius
0.3, maximum speed 1, for agent 0 then agent 1) followed by exactly `n + 1`
records: record `j` (for `j ≤ n`) holds the global time and the positions of
the two agents, in index order, of the state reached after `j` steps, so that
records `0 .. n-1` precede the steps and record `n` follows the loop. -/
theorem run_simulation_once_telemetry (E : Env) (fuel : Nat) (goals : List Vector2)
    (rng : RandState) (out : List Line) (t : Trial)
    (h : run_simulation_once E fuel goals rng out = some t) :
    1 ≤ t.steps ∧
    ∃ (w1 : World) (g1 g2 : Vector2) (records : List Line),
      setupScenario E fuel { sim := RVOSimulator.new, goals := [], rng := rng, out := out }
        = some (w1, t.attempts) ∧
      w1.goals = [g1, g2] ∧
      t.world.out = out ++ [Line.header g1.x g1.y 0.3 1.0, Line.header g2.x g2.y 0.3 1.0]
        ++ records ∧
      records.length = t.steps + 1 ∧
      t.world.out.length = out.length + 2 + (t.steps + 1) ∧
      ∀ j, j ≤ t.steps →
        ∃ wj, stepIter E j w1 = some wj ∧ wj.sim.getNumAgents = 2 ∧
          wj.sim.getGlobalTime = j ∧
          records[j]? = some (Line.record wj.sim.getGlobalTime
            (wj.sim.agents.map Agent.position)) := by
  obtain ⟨w1, w2, hs, -, hiter, ht, hinv1, hinv2, -, -, hn, -, -, htime2, g1, g2, recs, hgoals,
    hout, hlen, hrec⟩ := run_simulation_once_trace E fuel goals rng out t h
  obtain ⟨-, htime1, -, -, -⟩ := setupScenario_fresh E fuel rng out w1 t.attempts hs
  refine ⟨hn, w1, g1, g2, recs ++ [snapshot w2], hs, hgoals, ?_, by simp [hlen], ?_, ?_⟩
  · rw [ht]; simp only [hout, List.append_assoc]
  · rw [ht]; simp only [hout, List.length_append, hlen]; simp; omega
  · intro j hj
    obtain ⟨wj, hwj, hinvj, -, -, htimej, -⟩ := stepIter_inv E j w1 hinv1
    refine ⟨wj, hwj, hinvj.2.1, ?_, ?_⟩
    · simp only [RVOSimulator.getGlobalTime, htimej, htime1]; ring
    · rcases Nat.lt_or_eq_of_le hj with hlt | heq
      · obtain ⟨wj1, hwj1, hr⟩ := hrec j hlt
        rw [hwj] at hwj1; cases hwj1
        rw [List.getElem?_append_left (by omega), hr]; rfl
      · subst heq
        rw [hiter] at hwj; cases hwj
        rw [List.getElem?_append_right (by omega)]
        simp [hlen, snapshot]

/-- C10: if the batch loop (`main` is this loop with `count = 1500` from the
seeded state) returns for `count` trials from generator state `rng`, then it
ran `count` trials and, for each index `j`, trial `j` is the run
of `run_simulation_once` from `rng` advanced by the total of `2k + 4n` over the
trials before `j`; its rejection loop ran `k ≥ 1` times, its step loop `n ≥ 1`
times, and it leaves the generator advanced by exactly `2k + 4n` more draws. -/
theorem runTrials_draws (E : Env) (fuel count : Nat) (goals : List Vector2) (rng : RandState)
    (ts : List Trial) (h : runTrials E fuel count goals rng = some ts) :
    ts.length = count ∧
    ∀ (j : Nat) (t : Trial), ts[j]? = some t →
      1 ≤ t.attempts ∧ 1 ≤ t.steps ∧
      (∃ gj, run_simulation_once E fuel gj (rng.advance (drawsOf (ts.take j))) [] = some t) ∧
      t.world.rng = (rng.advance (drawsOf (ts.take j))).advance (2 * t.attempts + 4 * t.steps) ∧
      t.world.rng = rng.advance (drawsOf (ts.take (j + 1))) := by
  obtain ⟨hlen, hall⟩ := runTrials_spec E fuel count goals rng ts h
  refine ⟨hlen, ?_⟩
  intro j t hj
  obtain ⟨gj, hgj⟩ := hall j t hj
  obtain ⟨-, w2, -, -, -, ht, -, -, -, hk, hn, hrng, -⟩ :=
    run_simulation_once_trace E fuel gj _ [] t hgj
  have hr : t.world.rng
      = (rng.advance (drawsOf (ts.take j))).advance (2 * t.attempts + 4 * t.steps) := by
    rw [ht]; exact hrng
  refine ⟨hk, hn, ⟨gj, hgj⟩, hr, ?_⟩
  rw [hr]
  have htake : ts.take (j + 1) = ts.take j ++ [t] := by
    rw [List.take_succ, hj]; rfl
  simp only [htake, drawsOf, RandState.advance, List.map_append, List.sum_append, List.map_cons,
    List.map_nil, List.sum_cons, List.sum_nil]
  congr 1; ring

theorem demo_setup : setupScenario demoEnv 1 demoStart = some (demoSetup, 1) := by
  norm_num [setupScenario, scenarioLoop, demoEnv, demoRng, demoStart, demoSetup, demoSim,
    demoAgent, rand, scenarioAngle, M_PI, absSq, RVOSimulator.new, RVOSimulator.setTimeStep,
    RVOSimulator.setAgentDefaults, RVOSimulator.addAgent]

set_option maxRecDepth 4000 in
theorem demo_run (goals : List Vector2) (pos : Nat) (hpos : pos % 2 = 0) :
    run_simulation_once demoEnv 1 goals { demoRng with pos := pos } [] = some (demoTrial pos) := by
  have h1 : (pos + 1) % 2 = 1 := by omega
  have h2 : (pos + 1 + 1) % 2 = 0 := by omega
  have h3 : (pos + 1 + 1 + 1) % 2 = 1 := by omega
  have h4 : (pos + 1 + 1 + 1 + 1) % 2 = 0 := by omega
  have h5 : (pos + 1 + 1 + 1 + 1 + 1) % 2 = 1 := by omega
  norm_num [run_simulation_once, setupScenario, scenarioLoop, demoEnv, demoRng, demoTrial, demoSim,
    demoAgent, rand, scenarioAngle, M_PI, absSq, stepLoop, stepBody, updateVisualization,
    positionsFrom, setPreferredVelocities, castInt, setPreferredVelocitiesFrom,
    setPreferredVelocity, seekGoal, perturb, reachedGoal, reachedGoalFrom, RVOSimulator.new, RVOSimulator.setTimeStep,
    RVOSimulator.setAgentDefaults, RVOSimulator.addAgent, RVOSimulator.getNumAgents,
    RVOSimulator.getGlobalTime, RVOSimulator.getAgentPosition, RVOSimulator.getAgentRadius,
    RVOSimulator.getAgentPrefVelocity, RVOSimulator.setAgentPrefVelocity, RVOSimulator.doStep,
    moveAgents, goalVelocity, normalize, abs, perturbAngle, perturbDist, hpos, h1, h2, h3, h4, h5]

theorem demo_batch :
    runTrials demoEnv 1 2 [] demoRng = some [demoTrial 0, demoTrial 6] := by
  have e0 : demoRng = { demoRng with pos := 0 } := rfl
  have e1 : (demoTrial 0).world.rng = { demoRng with pos := 6 } := rfl
  simp only [runTrials]
  rw [e0, demo_run [] 0 (by decide)]
  simp only [e1]
  rw [demo_run _ 6 (by decide)]
  rfl

theorem retry_setup :
    setupScenario demoEnv 2 { demoStart with rng := retryRng }
      = some ({ demoSetup with rng := { retryRng with pos := 4 } }, 2) := by
  norm_num [setupScenario, scenarioLoop, demoEnv, retryRng, demoStart, demoSetup, demoSim,
    demoAgent, rand, scenarioAngle, M_PI, absSq, RVOSimulator.new, RVOSimulator.setTimeStep,
    RVOSimulator.setAgentDefaults, RVOSimulator.addAgent]

theorem demoRng_le (n : Nat) : demoRng.seq n ≤ demoEnv.RAND_MAX := by
  simp only [demoRng, demoEnv]
  split <;> omega

/-! ## Adequacy of the fuel -/

/-- If the first `k` pairs of draws are rejected and pair `k` is accepted, the
rejection loop returns after `k + 1` iterations with any fuel above `k`. -/
theorem scenarioLoop_complete (E : Env) :
    ∀ (k fuel : Nat) (rng : RandState), k < fuel →
      (∀ j, j < k → absSq (startPosition E (rng.seq (rng.pos + 2 * j)) -
        startPosition E (rng.seq (rng.pos + 2 * j + 1))) < 0.2) →
      ¬ absSq (startPosition E (rng.seq (rng.pos + 2 * k)) -
        startPosition E (rng.seq (rng.pos + 2 * k + 1))) < 0.2 →
      ∃ s, scenarioLoop E fuel rng = some s ∧ s.attempts = k + 1 := by
  intro k
  induction k with
  | zero =>
    intro fuel rng hf _ hacc
    obtain ⟨f, rfl⟩ : ∃ f, fuel = f + 1 := ⟨fuel - 1, by omega⟩
    have hacc1 : ¬ absSq ((⟨E.cos (scenarioAngle E (rand rng).1) * 2,
        E.sin (scenarioAngle E (rand rng).1) * 2⟩ : Vector2)
        - ⟨E.cos (scenarioAngle E (rand (rand rng).2).1) * 2,
          E.sin (scenarioAngle E (rand (rand rng).2).1) * 2⟩) < 0.2 := by
      simpa [startPosition, rand] using hacc
    simp only [scenarioLoop, if_neg hacc1]
    exact ⟨_, rfl, rfl⟩
  | succ k ih =>
    intro fuel rng hf hrej hacc
    obtain ⟨f, rfl⟩ : ∃ f, fuel = f + 1 := ⟨fuel - 1, by omega⟩
    have hrej0 : absSq ((⟨E.cos (scenarioAngle E (rand rng).1) * 2,
        E.sin (scenarioAngle E (rand rng).1) * 2⟩ : Vector2)
        - ⟨E.cos (scenarioAngle E (rand (rand rng).2).1) * 2,
          E.sin (scenarioAngle E (rand (rand rng).2).1) * 2⟩) < 0.2 := by
      simpa [startPosition, rand] using hrej 0 (Nat.succ_pos k)
    obtain ⟨s, hs, hk⟩ := ih f (rand (rand rng).2).2 (by omega)
      (fun j hj => by
        have := hrej (j + 1) (by omega)
        have e : rng.pos + 2 * (j + 1) = rng.pos + 1 + 1 + 2 * j := by omega
        rw [e] at this
        simpa [rand] using this)
      (by
        have e : rng.pos + 2 * (k + 1) = rng.pos + 1 + 1 + 2 * k := by omega
        rw [e] at hacc
        simpa [rand] using hacc)
    simp only [scenarioLoop, if_pos hrej0, hs, Option.map_some']
    exact ⟨_, rfl, by simp [hk]⟩

/-- If `reachedGoal` is first `true` after `m + 1` passes through the loop
body, the step loop returns that state and the count `m + 1` with any fuel
above `m`. -/
theorem stepLoop_complete (E : Env) :
    ∀ (m fuel : Nat) (w w1 : World), m < fuel →
      stepIter E (m + 1) w = some w1 → reachedGoal w1 = some true →
      (∀ j wj, 1 ≤ j → j ≤ m → stepIter E j w = some wj → reachedGoal wj = some false) →
      stepLoop E fuel w = some (w1, m + 1) := by
  intro m
  induction m with
  | zero =>
    intro fuel w w1 hf hiter hreached _
    obtain ⟨f, rfl⟩ : ∃ f, fuel = f + 1 := ⟨fuel - 1, by omega⟩
    rcases hb : stepBody E w with _ | w3
    · simp [stepIter, hb] at hiter
    · simp only [stepIter, hb, Option.some.injEq] at hiter
      subst hiter
      simp only [stepLoop, hb, hreached]
  | succ m ih =>
    intro fuel w w1 hf hiter hreached hfalse
    obtain ⟨f, rfl⟩ : ∃ f, fuel = f + 1 := ⟨fuel - 1, by omega⟩
    rcases hb : stepBody E w with _ | w3
    · simp [stepIter, hb] at hiter
    · have hiter3 : stepIter E (m + 1) w3 = some w1 := by
        simpa only [stepIter, hb] using hiter
      have hr3 : reachedGoal w3 = some false :=
        hfalse 1 w3 (le_refl _) (by omega) (by simp [stepIter, hb])
      have hrec := ih f w3 w1 (by omega) hiter3 hreached
        (fun j wj hj1 hj2 hwj => hfalse (j + 1) wj (by omega) (by omega)
          (by simpa only [stepIter, hb] using hwj))
      simp only [stepLoop, hb, hr3, hrec, Option.map_some']

/-- More fuel does not change what the rejection loop returns. -/
theorem scenarioLoop_mono (E : Env) :
    ∀ (fuel : Nat) (rng : RandState) (s : Scenario), scenarioLoop E fuel rng = some s →
      ∀ fuel1, fuel ≤ fuel1 → scenarioLoop E fuel1 rng = some s := by
  intro fuel
  induction fuel with
  | zero => intro rng s h; simp [scenarioLoop] at h
  | succ fuel ih =>
    intro rng s h fuel1 hle
    obtain ⟨f, rfl⟩ : ∃ f, fuel1 = f + 1 := ⟨fuel1 - 1, by omega⟩
    simp only [scenarioLoop] at h ⊢
    split at h
    · rename_i hrej
      rw [if_pos hrej]
      rcases hrec : scenarioLoop E fuel (rand (rand rng).2).2 with _ | s0
      · simp [hrec] at h
      · rw [hrec] at h
        rw [ih _ s0 hrec f (by omega)]
        exact h
    · rename_i hacc
      rw [if_neg hacc]
      exact h

/-- More fuel does not change what `setupScenario` returns. -/
theorem setupScenario_mono (E : Env) (fuel fuel1 : Nat) (w : World) (r : World × Nat)
    (h : setupScenario E fuel w = some r) (hle : fuel ≤ fuel1) :
    setupScenario E fuel1 w = some r := by
  unfold setupScenario at h ⊢
  rcases hs : scenarioLoop E fuel w.rng with _ | s
  · simp [hs] at h
  · rw [hs] at h
    rw [scenarioLoop_mono E fuel w.rng s hs fuel1 hle]
    exact h

/-- More fuel does not change what the step loop returns. -/
theorem stepLoop_mono (E : Env) :
    ∀ (fuel : Nat) (w : World) (r : World × Nat), stepLoop E fuel w = some r →
      ∀ fuel1, fuel ≤ fuel1 → stepLoop E fuel1 w = some r := by
  intro fuel
  induction fuel with
  | zero => intro w r h; simp [stepLoop] at h
  | succ fuel ih =>
    intro w r h fuel1 hle
    obtain ⟨f, rfl⟩ : ∃ f, fuel1 = f + 1 := ⟨fuel1 - 1, by omega⟩
    simp only [stepLoop] at h ⊢
    rcases hb : stepBody E w with _ | w3
    · simp [hb] at h
    · simp only [hb] at h ⊢
      rcases hr : reachedGoal w3 with _ | b
      · simp [hr] at h
      · cases b with
        | true => simpa only [hr] using h
        | false =>
          simp only [hr] at h ⊢
          rcases hrec : stepLoop E fuel w3 with _ | r0
          · simp [hrec] at h
          · rw [hrec] at h
            rw [ih w3 r0 hrec f (by omega)]
            exact h

/-- More fuel does not change what a trial returns. -/
theorem run_simulation_once_mono (E : Env) (fuel fuel1 : Nat) (goals : List Vector2)
    (rng : RandState) (out : List Line) (t : Trial)
    (h : run_simulation_once E fuel goals rng out = some t) (hle : fuel ≤ fuel1) :
    run_simulation_once E fuel1 goals rng out = some t := by
  obtain ⟨w1, w2, hs, hl, ht⟩ := run_simulation_once_spec E fuel goals rng out t h
  have hs1 := setupScenario_mono E fuel fuel1 _ _ hs hle
  have hl1 := stepLoop_mono E fuel w1 _ hl fuel1 hle
  unfold run_simulation_once
  simp only [hs1, hl1, updateVisualization_spec, Option.some.injEq]
  rw [← ht]

/-- A trial returns as soon as the fuel covers both loops: if `setupScenario`
returns and `reachedGoal` is first `true` after `m + 1` passes through the loop
body, with `m` below the fuel, then `run_simulation_once` returns the final
state with one more record and the count `m + 1`. -/
theorem run_simulation_once_complete (E : Env) (fuel : Nat) (goals : List Vector2)
    (rng : RandState) (out : List Line) (k m : Nat) (w1 w2 : World)
    (hsetup : setupScenario E fuel
      { sim := RVOSimulator.new, goals := [], rng := rng, out := out } = some (w1, k))
    (hm : m < fuel) (hiter : stepIter E (m + 1) w1 = some w2)
    (hreached : reachedGoal w2 = some true)
    (hfalse : ∀ j wj, 1 ≤ j → j ≤ m → stepIter E j w1 = some wj → reachedGoal wj = some false) :
    run_simulation_once E fuel goals rng out
      = some { world := { w2 with out := w2.out ++ [snapshot w2] }, attempts := k,
               steps := m + 1 } := by
  have hl := stepLoop_complete E m fuel w1 w2 hm hiter hreached hfalse
  unfold run_simulation_once
  simp only [hsetup, hl, updateVisualization_spec]

/-! ## The claims at concrete inputs -/

/-- Witness of C1: the state right after the demo setup, where both agents are
4 away from their goals. -/
theorem reachedGoal_iff_all_within_radius_witness :
    demoSetup.goals.length = demoSetup.sim.getNumAgents ∧
    ∃ b, reachedGoal demoSetup = some b ∧
      (b = true ↔ ∀ (i : Nat) (a : Agent) (g : Vector2), i < demoSetup.sim.getNumAgents →
        demoSetup.sim.agents[i]? = some a →
        demoSetup.goals[i]? = some g → absSq (a.position - g) ≤ a.radius * a.radius) :=
  ⟨rfl, (reachedGoal_iff_all_within_radius demoSetup).1 rfl⟩

/-- Witness of C2: the demo setup, with starts (2, 0), (-2, 0). -/
theorem setupScenario_goal_eq_neg_start_witness :
    setupScenario demoEnv 1 demoStart = some (demoSetup, 1) ∧
    ∃ p1 p2 : Vector2,
      demoSetup.sim = ((configured demoStart.sim).addAgent p1).addAgent p2 ∧
      demoSetup.goals = demoStart.goals ++ [-p1, -p2] ∧
      (-p1).x = -p1.x ∧ (-p1).y = -p1.y ∧ (-p2).x = -p2.x ∧ (-p2).y = -p2.y ∧
      (demoStart.goals = [] → demoSetup.goals[0]? = some (-p1) ∧
        demoSetup.goals[1]? = some (-p2)) :=
  ⟨demo_setup, setupScenario_goal_eq_neg_start demoEnv 1 demoStart demoSetup 1 demo_setup⟩

/-- Witness of C3: a setup whose first attempt is rejected (`k = 2`). -/
theorem setupScenario_start_separation_witness :
    setupScenario demoEnv 2 { demoStart with rng := retryRng }
      = some ({ demoSetup with rng := { retryRng with pos := 4 } }, 2) ∧
    ∃ p1 p2 : Vector2,
      demoSetup.sim = ((configured demoStart.sim).addAgent p1).addAgent p2 ∧
      (0.2 : ℚ) ≤ absSq (p1 - p2) ∧
      1 ≤ 2 ∧
      p1 = startPosition demoEnv (retryRng.seq (retryRng.pos + 2 * (2 - 1))) ∧
      p2 = startPosition demoEnv (retryRng.seq (retryRng.pos + 2 * (2 - 1) + 1)) ∧
      ({ retryRng with pos := 4 } : RandState) = retryRng.advance (2 * 2) ∧
      ∀ j, j < 2 - 1 →
        absSq (startPosition demoEnv (retryRng.seq (retryRng.pos + 2 * j)) -
          startPosition demoEnv (retryRng.seq (retryRng.pos + 2 * j + 1))) < 0.2 :=
  ⟨retry_setup, setupScenario_start_separation demoEnv 2 { demoStart with rng := retryRng }
    { demoSetup with rng := { retryRng with pos := 4 } } 2 retry_setup⟩

/-- Witness of C5: the demo trial (one attempt, one step, four lines). -/
theorem run_simulation_once_telemetry_witness :
    run_simulation_once demoEnv 1 [] demoRng [] = some (demoTrial 0) ∧
    1 ≤ (demoTrial 0).steps ∧
    ∃ (w1 : World) (g1 g2 : Vector2) (records : List Line),
      setupScenario demoEnv 1
          { sim := RVOSimulator.new, goals := [], rng := demoRng, out := [] }
        = some (w1, (demoTrial 0).attempts) ∧
      w1.goals = [g1, g2] ∧
      (demoTrial 0).world.out
        = [] ++ [Line.header g1.x g1.y 0.3 1.0, Line.header g2.x g2.y 0.3 1.0] ++ records ∧
      records.length = (demoTrial 0).steps + 1 ∧
      (demoTrial 0).world.out.length = ([] : List Line).length + 2 + ((demoTrial 0).steps + 1) ∧
      ∀ j, j ≤ (demoTrial 0).steps →
        ∃ wj, stepIter demoEnv j w1 = some wj ∧ wj.sim.getNumAgents = 2 ∧
          wj.sim.getGlobalTime = j ∧
          records[j]? = some (Line.record wj.sim.getGlobalTime
            (wj.sim.agents.map Agent.position)) :=
  ⟨demo_run [] 0 (by decide),
    run_simulation_once_telemetry demoEnv 1 [] demoRng [] (demoTrial 0)
      (demo_run [] 0 (by decide))⟩

/-- Witness of C10: a batch of two demo trials, 6 draws each. -/
theorem runTrials_draws_witness :
    runTrials demoEnv 1 2 [] demoRng = some [demoTrial 0, demoTrial 6] ∧
    [demoTrial 0, demoTrial 6].length = 2 ∧
    ∀ (j : Nat) (t : Trial), [demoTrial 0, demoTrial 6][j]? = some t →
      1 ≤ t.attempts ∧ 1 ≤ t.steps ∧
      (∃ gj, run_simulation_once demoEnv 1 gj
        (demoRng.advance (drawsOf ([demoTrial 0, demoTrial 6].take j))) [] = some t) ∧
      t.world.rng = (demoRng.advance (drawsOf ([demoTrial 0, demoTrial 6].take j))).advance
        (2 * t.attempts + 4 * t.steps) ∧
      t.world.rng = demoRng.advance (drawsOf ([demoTrial 0, demoTrial 6].take (j + 1))) :=
  ⟨demo_batch, runTrials_draws demoEnv 1 2 [] demoRng [demoTrial 0, demoTrial 6] demo_batch⟩

end RVO
